import Mathlib

/-!
Verification of the `Marker` enumeration from
`dl_manager/accelerator/src/text_cleaning/markers.rs`.

The Rust source declares a closed payload-free enum `Marker`, a function
`all_markers` that returns an empty vector, and a function `string_marker`
that maps every variant to a fixed string label by an exhaustive match.
-/

/-- The `Marker` enum, transcribed variant for variant from the Rust source. -/
inductive Marker where
  | Attachment
  | ClassName
  | CloudInstanceSpec
  | Date
  | FilePath
  | FormattedLogging
  | FormattedTraceback
  | GithubLink
  | ImageAttachment
  | InlineCode
  | IssueLink
  | IPAddress
  | Log
  | MethodOrVariableName
  | NoFormatBlock
  | PackageName
  | SimpleClassName
  | SimpleMethodOrVariableName
  | StorageSize
  | StructuredCodeBlock
  | TechnologyName
  | Traceback
  | UnformattedLog
  | UnformattedTraceback
  | UserProfileLink
  | VersionNumber
  | WebLink
  deriving DecidableEq, Fintype

namespace Marker

/-- `Marker::all_markers` from the source: it returns an empty vector. -/
def all_markers : List Marker := []

/-- `Marker::string_marker` from the source: the exhaustive match sending
each variant to its canonical label. -/
def string_marker : Marker → String
  | .Attachment => "ATTACHMENT"
  | .ClassName => "CLASSNAME"
  | .CloudInstanceSpec => "CLOUDINSTANCE"
  | .Date => "DATE"
  | .FilePath => "FILEPATH"
  | .FormattedLogging => "FORMATTEDLOGGINGOUTPUT"
  | .FormattedTraceback => "FORMATTEDTRACEBACK"
  | .GithubLink => "GITHUBLINK"
  | .ImageAttachment => "IMAGEATTACHMENT"
  | .InlineCode => "INLINECODESAMPLE"
  | .IssueLink => "ISSUELINK"
  | .IPAddress => "IP ADDRESS"
  | .Log => "LLLOG"
  | .MethodOrVariableName => "METHODORVARIABLENAME"
  | .NoFormatBlock => "NOFORMATBLOCK"
  | .PackageName => "PACKAGE"
  | .SimpleClassName => "SIMPLECLASSNAME"
  | .SimpleMethodOrVariableName => "SIMPLEMETHODORVARIABLENAME"
  | .StorageSize => "STORAGESIZE"
  | .StructuredCodeBlock => "STRUCTUREDCODEBLOCK"
  | .TechnologyName => "TECHNOLOGYNAMES"
  | .Traceback => "TTTRACEBACK"
  | .UnformattedLog => "UNFORMATTEDLOGGINGOUTPUT"
  | .UnformattedTraceback => "UNFORMATTEDTRACEBACK"
  | .UserProfileLink => "USERPROFILELINK"
  | .VersionNumber => "VERSIONNUMBER"
  | .WebLink => "WEBLINK"

/-- The match arms of `string_marker`, written out as an explicit
association table: one entry per variant, in source order, no default. -/
def markerTable : List (Marker × String) :=
  [ (.Attachment, "ATTACHMENT")
  , (.ClassName, "CLASSNAME")
  , (.CloudInstanceSpec, "CLOUDINSTANCE")
  , (.Date, "DATE")
  , (.FilePath, "FILEPATH")
  , (.FormattedLogging, "FORMATTEDLOGGINGOUTPUT")
  , (.FormattedTraceback, "FORMATTEDTRACEBACK")
  , (.GithubLink, "GITHUBLINK")
  , (.ImageAttachment, "IMAGEATTACHMENT")
  , (.InlineCode, "INLINECODESAMPLE")
  , (.IssueLink, "ISSUELINK")
  , (.IPAddress, "IP ADDRESS")
  , (.Log, "LLLOG")
  , (.MethodOrVariableName, "METHODORVARIABLENAME")
  , (.NoFormatBlock, "NOFORMATBLOCK")
  , (.PackageName, "PACKAGE")
  , (.SimpleClassName, "SIMPLECLASSNAME")
  , (.SimpleMethodOrVariableName, "SIMPLEMETHODORVARIABLENAME")
  , (.StorageSize, "STORAGESIZE")
  , (.StructuredCodeBlock, "STRUCTUREDCODEBLOCK")
  , (.TechnologyName, "TECHNOLOGYNAMES")
  , (.Traceback, "TTTRACEBACK")
  , (.UnformattedLog, "UNFORMATTEDLOGGINGOUTPUT")
  , (.UnformattedTraceback, "UNFORMATTEDTRACEBACK")
  , (.UserProfileLink, "USERPROFILELINK")
  , (.VersionNumber, "VERSIONNUMBER")
  , (.WebLink, "WEBLINK") ]

/-- The Rust identifier of each variant, transcribed from the enum
declaration. -/
def variantName : Marker → String
  | .Attachment => "Attachment"
  | .ClassName => "ClassName"
  | .CloudInstanceSpec => "CloudInstanceSpec"
  | .Date => "Date"
  | .FilePath => "FilePath"
  | .FormattedLogging => "FormattedLogging"
  | .FormattedTraceback => "FormattedTraceback"
  | .GithubLink => "GithubLink"
  | .ImageAttachment => "ImageAttachment"
  | .InlineCode => "InlineCode"
  | .IssueLink => "IssueLink"
  | .IPAddress => "IPAddress"
  | .Log => "Log"
  | .MethodOrVariableName => "MethodOrVariableName"
  | .NoFormatBlock => "NoFormatBlock"
  | .PackageName => "PackageName"
  | .SimpleClassName => "SimpleClassName"
  | .SimpleMethodOrVariableName => "SimpleMethodOrVariableName"
  | .StorageSize => "StorageSize"
  | .StructuredCodeBlock => "StructuredCodeBlock"
  | .TechnologyName => "TechnologyName"
  | .Traceback => "Traceback"
  | .UnformattedLog => "UnformattedLog"
  | .UnformattedTraceback => "UnformattedTraceback"
  | .UserProfileLink => "UserProfileLink"
  | .VersionNumber => "VersionNumber"
  | .WebLink => "WebLink"

/-- The variant name uppercased: `Char.toUpper` applied to every character
of `variantName`. -/
def upperName (v : Marker) : String :=
  String.mk ((variantName v).data.map Char.toUpper)

end Marker

/-- C1: `all_markers` unconditionally returns the empty sequence: it equals
`[]`, its length is zero, and no variant is a member of it. -/
theorem C1_all_markers_empty :
    Marker.all_markers = [] ∧ Marker.all_markers.length = 0 ∧
      ∀ m : Marker, m ∉ Marker.all_markers := by
  refine ⟨rfl, rfl, ?_⟩
  intro m h
  simp [Marker.all_markers] at h

/-- C2 counterexample: the `Marker` enumeration does not have exactly 26
variants — it has 27, so the claimed cardinality 26 is false. -/
theorem C2_counterexample : Fintype.card Marker ≠ 26 := by decide

/-- C2 (amended): the `Marker` enumeration is a closed tagged enumeration
with exactly 27 payload-free variants. -/
theorem C2_card_is_27 : Fintype.card Marker = 27 := by decide

/-- C3: for every `Marker` variant `v`, `string_marker v` is a non-empty
string. -/
theorem C3_labels_nonempty :
    ∀ v : Marker, (Marker.string_marker v).length ≠ 0 := by decide

/-- C4: the literal example labels hold exactly as given: `FILEPATH`,
`WEBLINK`, `IP ADDRESS` (embedded space preserved), `LLLOG` and
`TTTRACEBACK` (doubled-letter prefixes preserved verbatim). -/
theorem C4_literal_labels :
    Marker.string_marker .FilePath = "FILEPATH" ∧
    Marker.string_marker .WebLink = "WEBLINK" ∧
    Marker.string_marker .IPAddress = "IP ADDRESS" ∧
    Marker.string_marker .Log = "LLLOG" ∧
    Marker.string_marker .Traceback = "TTTRACEBACK" := by
  refine ⟨rfl, rfl, rfl, rfl, rfl⟩

/-- C5: the label mapping is total over the closed variant set: every
declared variant has its own explicit entry in the mapping table (no
default or error case), and that entry agrees with `string_marker`. -/
theorem C5_mapping_exhaustive :
    ∀ v : Marker, Marker.markerTable.lookup v = some (Marker.string_marker v) := by
  decide

/-- C6: `string_marker` is deterministic: any two calls on the same variant
return identical strings. -/
theorem C6_deterministic (v w : Marker) (h : v = w) :
    Marker.string_marker v = Marker.string_marker w := by
  rw [h]

/-- Witness for C6 at the concrete variant `FilePath`. -/
theorem C6_deterministic_witness :
    Marker.string_marker .FilePath = Marker.string_marker .FilePath :=
  C6_deterministic .FilePath .FilePath rfl

/-- C7: the canonical labels are pairwise distinct: `string_marker` is
injective on the variant set. -/
theorem C7_labels_injective : Function.Injective Marker.string_marker := by
  decide

/-- C8: the canonical label is not always the uppercased variant name: for
`PackageName`, `TechnologyName`, `CloudInstanceSpec`, `InlineCode`,
`FormattedLogging` and `UnformattedLog`, the label equals the listed string
and differs from the variant name uppercased. -/
theorem C8_label_not_upper_name :
    (Marker.string_marker .PackageName = "PACKAGE" ∧
      Marker.string_marker .PackageName ≠ Marker.upperName .PackageName) ∧
    (Marker.string_marker .TechnologyName = "TECHNOLOGYNAMES" ∧
      Marker.string_marker .TechnologyName ≠ Marker.upperName .TechnologyName) ∧
    (Marker.string_marker .CloudInstanceSpec = "CLOUDINSTANCE" ∧
      Marker.string_marker .CloudInstanceSpec ≠ Marker.upperName .CloudInstanceSpec) ∧
    (Marker.string_marker .InlineCode = "INLINECODESAMPLE" ∧
      Marker.string_marker .InlineCode ≠ Marker.upperName .InlineCode) ∧
    (Marker.string_marker .FormattedLogging = "FORMATTEDLOGGINGOUTPUT" ∧
      Marker.string_marker .FormattedLogging ≠ Marker.upperName .FormattedLogging) ∧
    (Marker.string_marker .UnformattedLog = "UNFORMATTEDLOGGINGOUTPUT" ∧
      Marker.string_marker .UnformattedLog ≠ Marker.upperName .UnformattedLog) := by
  decide

/-- C9: every character of every label is an uppercase ASCII letter, except
that the label of `IPAddress` may contain the space character; moreover the
`IPAddress` label contains exactly one space. -/
theorem C9_label_charset :
    (∀ v : Marker, ((Marker.string_marker v).data.all fun c =>
        (decide ('A' ≤ c) && decide (c ≤ 'Z')) ||
          (decide (c = ' ') && decide (v = Marker.IPAddress))) = true) ∧
    (Marker.string_marker .IPAddress).data.count ' ' = 1 := by
  constructor
  · decide
  · decide
